import Mathlib

/-!
Verification of the command-buffer state-tracking and resource-binding-flush
engine of the Vulkan-Samples framework (`framework/core/command_buffer.cpp`).

The definitions below are a shallow embedding of `CommandBuffer` and the state
components it orchestrates.  `CommandBuffer::begin`, `CommandBuffer::next_subpass`,
`CommandBuffer::push_constants`, `CommandBuffer::flush_pipeline_state` and
`CommandBuffer::flush_descriptor_state` are translated statement by statement
from the source file.  The components whose implementation files are not part
of the sources at hand (`PipelineState`, `ResourceBindingState`,
`PipelineLayout`, `DescriptorSetLayout`, the `is_*_descriptor_type` /
`is_depth_stencil_format` helpers) are modelled from the specification, as
marked in their doc comments.

Vulkan handles are modelled as natural numbers (0 standing for
`VK_NULL_HANDLE`); object identity is handle equality, as in the source, which
compares `get_handle()` results.
-/

/-- Descriptor types used by the engine (subset of `VkDescriptorType`). -/
inductive VkDescriptorType where
  | sampler
  | combinedImageSampler
  | sampledImage
  | storageImage
  | uniformTexelBuffer
  | storageTexelBuffer
  | uniformBuffer
  | storageBuffer
  | uniformBufferDynamic
  | storageBufferDynamic
  | inputAttachment
deriving DecidableEq

/-- Image formats (a representative subset of `VkFormat`). -/
inductive VkFormat where
  | r8g8b8a8Unorm
  | b8g8r8a8Unorm
  | r16g16b16a16Sfloat
  | d16Unorm
  | d32Sfloat
  | s8Uint
  | d24UnormS8Uint
  | d32SfloatS8Uint
deriving DecidableEq

/-- Image layouts relevant to the descriptor flush (subset of `VkImageLayout`).
`undefined` is the zero-initialized value of a `VkDescriptorImageInfo`. -/
inductive VkImageLayout where
  | undefined
  | general
  | shaderReadOnlyOptimal
  | depthStencilReadOnlyOptimal
deriving DecidableEq

/-- Pipeline bind points.  `other` stands for every value outside
graphics/compute (the source throws for those). -/
inductive VkPipelineBindPoint where
  | graphics
  | compute
  | other
deriving DecidableEq

/-- Result codes returned by the recording state machine. -/
inductive VkResult where
  | success
  | notReady
deriving DecidableEq

/-- `CommandBuffer::State` from the source header: Initial, Recording,
Executable, plus Invalid after a move. -/
inductive RecState where
  | initial
  | recording
  | executable
  | invalid
deriving DecidableEq

/-- Command buffer levels. -/
inductive VkCommandBufferLevel where
  | primary
  | secondary
deriving DecidableEq

/-- Modelled from the spec: `is_buffer_descriptor_type` (the helper lives in
`common/vk_common`, outside the given sources) - a descriptor type is a
buffer-descriptor type when it is one of the four (non-texel) buffer types. -/
def is_buffer_descriptor_type : VkDescriptorType → Bool
  | .uniformBuffer => true
  | .storageBuffer => true
  | .uniformBufferDynamic => true
  | .storageBufferDynamic => true
  | _ => false

/-- Modelled from the spec: `is_dynamic_buffer_descriptor_type` - a dynamic
descriptor is a binding whose byte offset is supplied at bind time. -/
def is_dynamic_buffer_descriptor_type : VkDescriptorType → Bool
  | .uniformBufferDynamic => true
  | .storageBufferDynamic => true
  | _ => false

/-- Modelled from the spec: `is_depth_stencil_format` (helper in
`common/vk_common`, outside the given sources). -/
def is_depth_stencil_format : VkFormat → Bool
  | .d16Unorm => true
  | .d32Sfloat => true
  | .s8Uint => true
  | .d24UnormS8Uint => true
  | .d32SfloatS8Uint => true
  | _ => false

/-!  Association lists modelling the ordered maps (`std::map`, `BindingMap`)
and the per-set layout table of the source.  `assocInsert` keeps keys in
strictly increasing order, matching iteration order of `std::map`. -/

/-- Lookup of the first entry with the given key. -/
def assocFind {α : Type} : List (Nat × α) → Nat → Option α
  | [], _ => none
  | (k, v) :: rest, key => if k = key then some v else assocFind rest key

/-- Ordered insert-or-assign, mirroring `map[key] = value`. -/
def assocInsert {α : Type} (key : Nat) (value : α) : List (Nat × α) → List (Nat × α)
  | [] => [(key, value)]
  | (k, v) :: rest =>
    if key < k then (key, value) :: (k, v) :: rest
    else if key = k then (key, value) :: rest
    else (k, v) :: assocInsert key value rest

/-- An image view: a handle plus the format the flush inspects. -/
structure CoreImageView where
  handle : Nat
  format : VkFormat
deriving DecidableEq

/-- `ResourceInfo` of ResourceBindingState (modelled from the spec): one bound
resource - a buffer region, an image view + sampler, or an input attachment.
Absent members are modelled as `none` (null pointers / `VK_NULL_HANDLE`). -/
structure ResourceInfo where
  buffer : Option Nat := none
  offset : Nat := 0
  range : Nat := 0
  image_view : Option CoreImageView := none
  sampler : Option Nat := none
deriving DecidableEq

/-- `ResourceSet` (modelled from the spec): binding index → array element →
resource, plus the per-set dirty flag. -/
structure ResourceSet where
  resource_bindings : List (Nat × List (Nat × ResourceInfo)) := []
  dirty : Bool := false
deriving DecidableEq

/-- `ResourceBindingState` (modelled from the spec): set index → `ResourceSet`,
plus the global dirty flag. -/
structure ResourceBindingState where
  set_bindings : List (Nat × ResourceSet) := []
  dirty : Bool := false
deriving DecidableEq

/-- Modelled from the spec: `reset()` clears all sets and all dirty flags. -/
def ResourceBindingState.reset : ResourceBindingState :=
  { set_bindings := [], dirty := false }

/-- Modelled from the spec: store a resource entry at (set, binding, element);
mark the set (and the global flag) dirty when the new entry differs from the
old one at that exact coordinate or did not previously exist. -/
def ResourceBindingState.bind_resource (rbs : ResourceBindingState)
    (set binding element : Nat) (r : ResourceInfo) : ResourceBindingState :=
  let old_set := (assocFind rbs.set_bindings set).getD {}
  let old_elems := (assocFind old_set.resource_bindings binding).getD []
  let changed : Bool := !(assocFind old_elems element == some r)
  let new_set : ResourceSet :=
    { resource_bindings := assocInsert binding (assocInsert element r old_elems) old_set.resource_bindings,
      dirty := old_set.dirty || changed }
  { set_bindings := assocInsert set new_set rbs.set_bindings,
    dirty := rbs.dirty || changed }

/-- Modelled from the spec: `bind_buffer` stores a buffer-region entry. -/
def ResourceBindingState.bind_buffer (rbs : ResourceBindingState)
    (buffer offset range set binding element : Nat) : ResourceBindingState :=
  rbs.bind_resource set binding element
    { buffer := some buffer, offset := offset, range := range }

/-- Modelled from the spec: `bind_image` stores an image + sampler entry (both
taken by reference in the source, hence always present). -/
def ResourceBindingState.bind_image (rbs : ResourceBindingState)
    (image_view : CoreImageView) (sampler : Nat) (set binding element : Nat) :
    ResourceBindingState :=
  rbs.bind_resource set binding element
    { image_view := some image_view, sampler := some sampler }

/-- Modelled from the spec: `bind_input` stores an input-attachment entry
(no sampler). -/
def ResourceBindingState.bind_input (rbs : ResourceBindingState)
    (image_view : CoreImageView) (set binding element : Nat) :
    ResourceBindingState :=
  rbs.bind_resource set binding element { image_view := some image_view }

/-- A descriptor set layout: its handle (identity) and the declared bindings,
binding index → descriptor type (the part of `VkDescriptorSetLayoutBinding`
the flush consumes). -/
structure DescriptorSetLayout where
  handle : Nat
  bindings : List (Nat × VkDescriptorType)
deriving DecidableEq

/-- `DescriptorSetLayout::get_layout_binding`: look up the declared binding. -/
def DescriptorSetLayout.get_layout_binding (dsl : DescriptorSetLayout)
    (binding_index : Nat) : Option VkDescriptorType :=
  assocFind dsl.bindings binding_index

/-- Modelled from the spec: the pipeline-layout interface the engine consumes -
the declared set index → set-layout table, and the push-constant-range stage
lookup (0 = no declared range covers the offset/size). -/
structure PipelineLayout where
  handle : Nat
  set_layouts : List (Nat × DescriptorSetLayout)
  push_constant_range_stage : Nat → Nat → Nat

/-- `PipelineLayout::get_bindings`: set index → declared bindings of that set. -/
def PipelineLayout.get_bindings (pl : PipelineLayout) :
    List (Nat × List (Nat × VkDescriptorType)) :=
  pl.set_layouts.map fun p => (p.1, p.2.bindings)

/-- `PipelineLayout::get_set_layout`. -/
def PipelineLayout.get_set_layout (pl : PipelineLayout) (set : Nat) :
    Option DescriptorSetLayout :=
  assocFind pl.set_layouts set

/-- `PipelineLayout::has_set_layout`. -/
def PipelineLayout.has_set_layout (pl : PipelineLayout) (set : Nat) : Bool :=
  (pl.get_set_layout set).isSome

/-- The pipeline layout a freshly reset `PipelineState` refers to (a null
layout reference in the source, modelled as the empty layout). -/
def emptyPipelineLayout : PipelineLayout :=
  { handle := 0, set_layouts := [], push_constant_range_stage := fun _ _ => 0 }

/-- A render pass: handle plus the per-subpass color output count consumed by
`begin_render_pass` / `next_subpass`. -/
structure RenderPass where
  handle : Nat
  color_output_count : Nat → Nat

/-- One color-blend attachment description (contents irrelevant to the claims;
only the list length is observed). -/
structure ColorBlendAttachmentState where
  blend_enable : Bool := false
deriving DecidableEq

/-- The color-blend state block of `PipelineState`. -/
structure ColorBlendState where
  attachments : List ColorBlendAttachmentState := []
deriving DecidableEq

/-- `std::vector::resize` on the attachment list: truncate or pad with
default-constructed elements. -/
def listResize (l : List ColorBlendAttachmentState) (n : Nat) :
    List ColorBlendAttachmentState :=
  l.take n ++ List.replicate (n - l.length) ⟨false⟩

/-- `PipelineState` (modelled from the spec): the declarative pipeline
description restricted to the fields the claims observe, plus the dirty flag. -/
structure PipelineState where
  pipeline_layout : PipelineLayout := emptyPipelineLayout
  render_pass : Option Nat := none
  color_blend_state : ColorBlendState := {}
  subpass_index : Nat := 0
  dirty : Bool := false

/-- Modelled from the spec: `reset()` restores all fields to defaults and
clears the dirty flag. -/
def PipelineState.reset : PipelineState := {}

/-- Modelled from the spec: mutators compare the new value against the current
one; if different, store it and set the dirty flag, else leave dirty alone. -/
def PipelineState.set_subpass_index (ps : PipelineState) (idx : Nat) : PipelineState :=
  if ps.subpass_index ≠ idx then { ps with subpass_index := idx, dirty := true } else ps

/-- Modelled from the spec: compare-and-mark-dirty mutator for the color-blend
state block. -/
def PipelineState.set_color_blend_state (ps : PipelineState) (cbs : ColorBlendState) :
    PipelineState :=
  if ps.color_blend_state ≠ cbs then { ps with color_blend_state := cbs, dirty := true } else ps

/-- Modelled from the spec: compare-and-mark-dirty mutator for the pipeline
layout reference (identity is the handle). -/
def PipelineState.set_pipeline_layout (ps : PipelineState) (pl : PipelineLayout) :
    PipelineState :=
  if ps.pipeline_layout.handle ≠ pl.handle then
    { ps with pipeline_layout := pl, dirty := true }
  else ps

/-- Modelled from the spec: `set_render_pass` stamps the currently active
render pass into the pipeline state (spec 4.5). -/
def PipelineState.set_render_pass (ps : PipelineState) (rp : RenderPass) : PipelineState :=
  { ps with render_pass := some rp.handle }

/-- `VkDescriptorBufferInfo` as filled by the flush. -/
structure VkDescriptorBufferInfo where
  buffer : Nat
  offset : Nat
  range : Nat
deriving DecidableEq

/-- `VkDescriptorImageInfo` as filled by the flush. -/
structure VkDescriptorImageInfo where
  sampler : Nat
  imageView : Nat
  imageLayout : VkImageLayout
deriving DecidableEq

/-- `BindingMap<T>`: binding index → array element → T. -/
def BindingMap (α : Type) : Type := List (Nat × List (Nat × α))

/-- Empty binding map. -/
def BindingMap.empty {α : Type} : BindingMap α := []

/-- `map[binding][element] = value` on a `BindingMap`. -/
def bmInsert {α : Type} (binding element : Nat) (value : α) (m : BindingMap α) :
    BindingMap α :=
  assocInsert binding (assocInsert element value ((assocFind m binding).getD [])) m

/-- Lookup at (binding, element) in a `BindingMap`. -/
def bmFind {α : Type} (m : BindingMap α) (binding element : Nat) : Option α :=
  (assocFind m binding).bind fun inner => assocFind inner element

/-- The full tracked state of a `CommandBuffer`: recording state, pipeline
state, resource bindings, the bound-descriptor-set-layout table and the
current render pass binding. -/
structure CommandBufferState where
  state : RecState := .initial
  level : VkCommandBufferLevel := .primary
  pipeline_state : PipelineState := {}
  resource_binding_state : ResourceBindingState := {}
  descriptor_set_layout_state : List (Nat × DescriptorSetLayout) := []
  current_render_pass : Option RenderPass := none

/-!  CommandBuffer operations, translated from `command_buffer.cpp`. -/

/-- `CommandBuffer::begin` (lines 78-116): returns `VK_NOT_READY` and leaves
everything untouched when already recording; otherwise enters Recording and
resets `pipeline_state`, `resource_binding_state` and
`descriptor_set_layout_state`.  A secondary buffer inherits the primary
render-pass binding (passed here as `primary_render_pass`). -/
def CommandBufferState.begin (cb : CommandBufferState)
    (primary_render_pass : Option RenderPass) : VkResult × CommandBufferState :=
  if cb.state = RecState.recording then
    (VkResult.notReady, cb)
  else
    let cb1 : CommandBufferState :=
      { cb with
        state := RecState.recording,
        pipeline_state := PipelineState.reset,
        resource_binding_state := ResourceBindingState.reset,
        descriptor_set_layout_state := [] }
    let cb2 :=
      if cb1.level = VkCommandBufferLevel.secondary then
        { cb1 with current_render_pass := primary_render_pass }
      else cb1
    (VkResult.success, cb2)

/-- `CommandBuffer::end` (lines 118-132). -/
def CommandBufferState.endRecording (cb : CommandBufferState) : VkResult × CommandBufferState :=
  if cb.state ≠ RecState.recording then
    (VkResult.notReady, cb)
  else
    (VkResult.success, { cb with state := RecState.executable })

/-- `CommandBuffer::next_subpass` (lines 170-185): increment the subpass index,
resize the color-blend attachment list to the color output count of the new
subpass, reset the resource binding state and clear the bound-layout table.
The source dereferences the current render pass; with no render pass bound the
count is modelled as 0 (the claims assume an active render pass). -/
def CommandBufferState.next_subpass (cb : CommandBufferState) : CommandBufferState :=
  let ps := cb.pipeline_state.set_subpass_index (cb.pipeline_state.subpass_index + 1)
  let count :=
    match cb.current_render_pass with
    | some rp => rp.color_output_count ps.subpass_index
    | none => 0
  let blend := ps.color_blend_state
  let ps := ps.set_color_blend_state { blend with attachments := listResize blend.attachments count }
  { cb with
    pipeline_state := ps,
    resource_binding_state := ResourceBindingState.reset,
    descriptor_set_layout_state := [] }

/-- `CommandBuffer::bind_pipeline_layout` (lines 200-203). -/
def CommandBufferState.bind_pipeline_layout (cb : CommandBufferState)
    (pl : PipelineLayout) : CommandBufferState :=
  { cb with pipeline_state := cb.pipeline_state.set_pipeline_layout pl }

/-- `CommandBuffer::bind_buffer` (lines 226-229). -/
def CommandBufferState.bind_buffer (cb : CommandBufferState)
    (buffer offset range set binding element : Nat) : CommandBufferState :=
  { cb with resource_binding_state :=
      cb.resource_binding_state.bind_buffer buffer offset range set binding element }

/-- `CommandBuffer::bind_image` (lines 231-234). -/
def CommandBufferState.bind_image (cb : CommandBufferState)
    (image_view : CoreImageView) (sampler : Nat) (set binding element : Nat) :
    CommandBufferState :=
  { cb with resource_binding_state :=
      cb.resource_binding_state.bind_image image_view sampler set binding element }

/-- `CommandBuffer::bind_input` (lines 236-239). -/
def CommandBufferState.bind_input (cb : CommandBufferState)
    (image_view : CoreImageView) (set binding element : Nat) : CommandBufferState :=
  { cb with resource_binding_state :=
      cb.resource_binding_state.bind_input image_view set binding element }

/-- Outcome of `CommandBuffer::push_constants`: either a push-constant command
with the resolved stage flags, or a skipped push with a logged warning. -/
inductive PushConstantsResult where
  | pushed (stage offset size : Nat)
  | skippedWithWarning (offset size : Nat)
deriving DecidableEq

/-- `CommandBuffer::push_constants` (lines 210-224): look up the shader stage
of the push-constant range covering [offset, offset+size); when the layout
declares no covering range (stage 0) the push is skipped with a warning and
the call still returns normally. -/
def CommandBufferState.push_constants (cb : CommandBufferState)
    (offset : Nat) (values : List Nat) : PushConstantsResult :=
  let pipeline_layout := cb.pipeline_state.pipeline_layout
  let shader_stage := pipeline_layout.push_constant_range_stage offset values.length
  if shader_stage ≠ 0 then
    PushConstantsResult.pushed shader_stage offset values.length
  else
    PushConstantsResult.skippedWithWarning offset values.length

/-- `CommandBuffer::flush_pipeline_state` (lines 443-475).  The second
component of a successful result records the pipeline resolution performed:
`some bp` means one pipeline was requested from the resource cache and bound
at bind point `bp`; `none` means no work was done.  An unsupported bind point
is the thrown error of the source. -/
def CommandBufferState.flush_pipeline_state (cb : CommandBufferState)
    (bind_point : VkPipelineBindPoint) :
    Except String (CommandBufferState × Option VkPipelineBindPoint) :=
  if cb.pipeline_state.dirty = false then
    Except.ok (cb, none)
  else
    let ps := { cb.pipeline_state with dirty := false }
    match bind_point with
    | VkPipelineBindPoint.graphics =>
      let ps := { ps with render_pass := cb.current_render_pass.map RenderPass.handle }
      Except.ok ({ cb with pipeline_state := ps }, some VkPipelineBindPoint.graphics)
    | VkPipelineBindPoint.compute =>
      Except.ok ({ cb with pipeline_state := ps }, some VkPipelineBindPoint.compute)
    | VkPipelineBindPoint.other =>
      Except.error "Only graphics and compute pipeline bind points are supported now"

/-!  The descriptor-set flush (`flush_descriptor_state`, lines 477-647). -/

/-- Accumulator for the per-set resource walk: the buffer / image info maps,
the ordered dynamic-offset list, and a count of null image-view dereferences
(the undefined behavior the source would perform at line 599 when an entry
has a sampler but no image view). -/
structure SetFlushAcc where
  buffer_infos : BindingMap VkDescriptorBufferInfo := BindingMap.empty
  image_infos : BindingMap VkDescriptorImageInfo := BindingMap.empty
  dynamic_offsets : List Nat := []
  null_derefs : Nat := 0

/-- Processing of one array element (lines 564-630): the buffer branch fills a
`VkDescriptorBufferInfo`, zeroing the offset and extracting it into the
dynamic-offset list for dynamic descriptor types; the image branch fills a
`VkDescriptorImageInfo` whose layout is derived from the declared descriptor
type, skipping (`continue`) every other type; an image entry without an image
view dereferences null in the source, counted in `null_derefs` (and the
zero-initialized info record is stored, as the source then does). -/
def processElement (descriptor_type : VkDescriptorType)
    (binding_index array_element : Nat) (r : ResourceInfo)
    (acc : SetFlushAcc) : SetFlushAcc :=
  match r.buffer, is_buffer_descriptor_type descriptor_type with
  | some b, true =>
    let buffer_info : VkDescriptorBufferInfo :=
      { buffer := b, offset := r.offset, range := r.range }
    if is_dynamic_buffer_descriptor_type descriptor_type then
      { acc with
        dynamic_offsets := acc.dynamic_offsets ++ [buffer_info.offset],
        buffer_infos := bmInsert binding_index array_element
          { buffer_info with offset := 0 } acc.buffer_infos }
    else
      { acc with
        buffer_infos := bmInsert binding_index array_element buffer_info acc.buffer_infos }
  | _, _ =>
    if r.image_view.isSome || r.sampler.isSome then
      let sampler_handle := (r.sampler).getD 0
      match r.image_view with
      | some v =>
        match descriptor_type with
        | VkDescriptorType.combinedImageSampler =>
          let lay := if is_depth_stencil_format v.format then
              VkImageLayout.depthStencilReadOnlyOptimal
            else VkImageLayout.shaderReadOnlyOptimal
          let info : VkDescriptorImageInfo :=
            { sampler := sampler_handle, imageView := v.handle, imageLayout := lay }
          { acc with image_infos := bmInsert binding_index array_element info acc.image_infos }
        | VkDescriptorType.inputAttachment =>
          let lay := if is_depth_stencil_format v.format then
              VkImageLayout.depthStencilReadOnlyOptimal
            else VkImageLayout.shaderReadOnlyOptimal
          let info : VkDescriptorImageInfo :=
            { sampler := sampler_handle, imageView := v.handle, imageLayout := lay }
          { acc with image_infos := bmInsert binding_index array_element info acc.image_infos }
        | VkDescriptorType.storageImage =>
          let info : VkDescriptorImageInfo :=
            { sampler := sampler_handle, imageView := v.handle,
              imageLayout := VkImageLayout.general }
          { acc with image_infos := bmInsert binding_index array_element info acc.image_infos }
        | _ => acc
      | none =>
        let info : VkDescriptorImageInfo :=
          { sampler := sampler_handle, imageView := 0, imageLayout := VkImageLayout.undefined }
        { acc with
          image_infos := bmInsert binding_index array_element info acc.image_infos,
          null_derefs := acc.null_derefs + 1 }
    else acc

/-- Walk of all resource bindings of one set (lines 550-631): bindings the
set layout does not declare are skipped; declared ones have each array
element processed. -/
def processBindings (dsl : DescriptorSetLayout) :
    List (Nat × List (Nat × ResourceInfo)) → SetFlushAcc → SetFlushAcc
  | [], acc => acc
  | (binding_index, elements) :: rest, acc =>
    match dsl.get_layout_binding binding_index with
    | none => processBindings dsl rest acc
    | some descriptor_type =>
      processBindings dsl rest
        (elements.foldl (fun a p => processElement descriptor_type binding_index p.1 p.2 a) acc)

/-- One resolved-and-bound descriptor set: the set index, the layout used for
the resolution (recorded into `descriptor_set_layout_state`), the info maps
that key the resource-cache request, the dynamic offsets passed to the bind,
and the null-dereference count observed while building the maps.  Each record
corresponds to exactly one `request_descriptor_set` plus one
`vkCmdBindDescriptorSets` in the source. -/
structure SetFlushRecord where
  set : Nat
  layout : DescriptorSetLayout
  buffer_infos : BindingMap VkDescriptorBufferInfo
  image_infos : BindingMap VkDescriptorImageInfo
  dynamic_offsets : List Nat
  null_derefs : Nat

/-- The per-set loop of the flush (lines 522-645): skip sets that are neither
dirty nor marked for update; otherwise clear the per-set dirty flag (the
source does this before the set-layout check), skip sets the pipeline layout
does not declare, and resolve + bind the rest.  Returns the updated set list
and the flush records in iteration order. -/
def flushSets (pl : PipelineLayout) (update_sets : List Nat) :
    List (Nat × ResourceSet) → List (Nat × ResourceSet) × List SetFlushRecord
  | [] => ([], [])
  | (set, sb) :: rest =>
    if !sb.dirty && !(update_sets.contains set) then
      let res := flushSets pl update_sets rest
      ((set, sb) :: res.1, res.2)
    else
      let sb1 := { sb with dirty := false }
      match pl.get_set_layout set with
      | none =>
        let res := flushSets pl update_sets rest
        ((set, sb1) :: res.1, res.2)
      | some dsl =>
        let acc := processBindings dsl sb.resource_bindings {}
        let rec0 : SetFlushRecord :=
          { set := set, layout := dsl,
            buffer_infos := acc.buffer_infos, image_infos := acc.image_infos,
            dynamic_offsets := acc.dynamic_offsets, null_derefs := acc.null_derefs }
        let res := flushSets pl update_sets rest
        ((set, sb1) :: res.1, rec0 :: res.2)

/-- Step 2 of the flush (lines 483-499): the set indices declared by the
pipeline layout that were bound before with a layout object of different
identity. -/
def computeUpdateSets (pl : PipelineLayout)
    (dsls : List (Nat × DescriptorSetLayout)) : List Nat :=
  pl.get_bindings.filterMap fun p =>
    match assocFind dsls p.1 with
    | some bound =>
      match pl.get_set_layout p.1 with
      | some cur => if bound.handle ≠ cur.handle then some p.1 else none
      | none => none
    | none => none

/-- `CommandBuffer::flush_descriptor_state` (lines 477-647): compute the
update set, prune stale bound layouts, and - when the binding state is dirty
or some set requires an update - clear the global dirty flag and run the
per-set loop.  The returned record list holds one entry per descriptor set
resolved and bound. -/
def CommandBufferState.flush_descriptor_state (cb : CommandBufferState) :
    CommandBufferState × List SetFlushRecord :=
  let pl := cb.pipeline_state.pipeline_layout
  let update_sets := computeUpdateSets pl cb.descriptor_set_layout_state
  let pruned := cb.descriptor_set_layout_state.filter fun p => pl.has_set_layout p.1
  if cb.resource_binding_state.dirty || !update_sets.isEmpty then
    let res := flushSets pl update_sets cb.resource_binding_state.set_bindings
    let dsls := res.2.foldl (fun d r => assocInsert r.set r.layout d) pruned
    ({ cb with
       resource_binding_state := { set_bindings := res.1, dirty := false },
       descriptor_set_layout_state := dsls }, res.2)
  else
    ({ cb with descriptor_set_layout_state := pruned }, [])

/-- `CommandBuffer::draw` (lines 319-326): flush the pipeline state, then the
descriptor state, then emit the draw. -/
def CommandBufferState.draw (cb : CommandBufferState) :
    Except String (CommandBufferState × Option VkPipelineBindPoint × List SetFlushRecord) :=
  match cb.flush_pipeline_state VkPipelineBindPoint.graphics with
  | Except.error e => Except.error e
  | Except.ok (cb1, resolution) =>
    let res := cb1.flush_descriptor_state
    Except.ok (res.1, resolution, res.2)

/-!  Association-list lemmas. -/

/-- A key outside the key list is not found. -/
theorem assocFind_eq_none_of_not_mem {α : Type} {l : List (Nat × α)} {k : Nat}
    (h : k ∉ l.map Prod.fst) : assocFind l k = none := by
  induction l with
  | nil => rfl
  | cons p rest ih =>
    obtain ⟨k1, v1⟩ := p
    simp only [List.map_cons, List.mem_cons] at h
    push_neg at h
    simp only [assocFind]
    rw [if_neg (fun hk : k1 = k => h.1 hk.symm)]
    exact ih h.2

/-- A successful lookup is a member of the list. -/
theorem mem_of_assocFind_eq_some {α : Type} {l : List (Nat × α)} {k : Nat} {v : α}
    (h : assocFind l k = some v) : (k, v) ∈ l := by
  induction l with
  | nil => simp [assocFind] at h
  | cons p rest ih =>
    obtain ⟨k2, v2⟩ := p
    simp only [assocFind] at h
    by_cases hk : k2 = k
    · subst hk
      rw [if_pos rfl] at h
      cases h
      exact List.mem_cons_self _ _
    · rw [if_neg hk] at h
      exact List.mem_cons_of_mem _ (ih h)

/-- Lookup after ordered insert-or-assign. -/
theorem assocFind_assocInsert {α : Type} (l : List (Nat × α)) (k k2 : Nat) (v : α) :
    assocFind (assocInsert k v l) k2 = if k = k2 then some v else assocFind l k2 := by
  induction l with
  | nil => simp [assocInsert, assocFind]
  | cons p rest ih =>
    obtain ⟨k1, v1⟩ := p
    simp only [assocInsert]
    by_cases h1 : k < k1
    · rw [if_pos h1]
      simp only [assocFind]
    · rw [if_neg h1]
      by_cases h2 : k = k1
      · subst h2
        rw [if_pos rfl]
        simp only [assocFind]
        by_cases h3 : k = k2
        · simp [h3]
        · simp [h3]
      · rw [if_neg h2]
        simp only [assocFind, ih]
        by_cases h3 : k1 = k2
        · subst h3
          rw [if_pos rfl, if_neg (fun h4 : k = k1 => h2 h4), if_pos rfl]
        · by_cases h4 : k = k2
          · simp [h3, h4]
          · simp [h3, h4]

/-- Members of an insert-or-assign result: the new pair or an old member. -/
theorem mem_assocInsert {α : Type} {p : Nat × α} {k : Nat} {v : α} {l : List (Nat × α)}
    (h : p ∈ assocInsert k v l) : p = (k, v) ∨ p ∈ l := by
  induction l with
  | nil => simpa [assocInsert] using h
  | cons q rest ih =>
    obtain ⟨k1, v1⟩ := q
    simp only [assocInsert] at h
    by_cases h1 : k < k1
    · rw [if_pos h1] at h
      rcases List.mem_cons.1 h with h2 | h2
      · exact Or.inl h2
      · exact Or.inr h2
    · rw [if_neg h1] at h
      by_cases h2 : k = k1
      · rw [if_pos h2] at h
        rcases List.mem_cons.1 h with h3 | h3
        · exact Or.inl h3
        · exact Or.inr (List.mem_cons_of_mem _ h3)
      · rw [if_neg h2] at h
        rcases List.mem_cons.1 h with h3 | h3
        · exact Or.inr (by simp [h3])
        · rcases ih h3 with h4 | h4
          · exact Or.inl h4
          · exact Or.inr (List.mem_cons_of_mem _ h4)

/-- Resizing yields exactly the requested length. -/
theorem listResize_length (l : List ColorBlendAttachmentState) (n : Nat) :
    (listResize l n).length = n := by
  simp only [listResize, List.length_append, List.length_take, List.length_replicate]
  omega

/-!  Claim theorems. -/

/-- Claim C5: `flush_pipeline_state` is a no-op when the pipeline state is not
dirty, and it is idempotent - of two consecutive calls with no intervening
mutation, the first performs exactly one pipeline resolution when the state
was dirty (none otherwise) and the second performs none. -/
theorem flush_pipeline_state_idempotent (cb : CommandBufferState)
    (bp : VkPipelineBindPoint) (hbp : bp ≠ VkPipelineBindPoint.other) :
    (cb.pipeline_state.dirty = false →
       cb.flush_pipeline_state bp = Except.ok (cb, none))
    ∧ (∀ cb1 r1, cb.flush_pipeline_state bp = Except.ok (cb1, r1) →
        r1 = (if cb.pipeline_state.dirty then some bp else none)
        ∧ cb1.flush_pipeline_state bp = Except.ok (cb1, none)) := by
  constructor
  · intro h
    simp [CommandBufferState.flush_pipeline_state, h]
  · intro cb1 r1 h
    cases hd : cb.pipeline_state.dirty with
    | false =>
      simp only [CommandBufferState.flush_pipeline_state, hd, if_pos rfl] at h
      cases h
      simp [CommandBufferState.flush_pipeline_state, hd]
    | true =>
      simp only [CommandBufferState.flush_pipeline_state, hd] at h
      cases bp with
      | graphics =>
        simp only at h
        cases h
        simp [CommandBufferState.flush_pipeline_state, hd]
      | compute =>
        simp only at h
        cases h
        simp [CommandBufferState.flush_pipeline_state, hd]
      | other => exact absurd rfl hbp

/-- Concrete instantiation of the idempotence theorem. -/
def cbW5 : CommandBufferState :=
  { state := RecState.recording, pipeline_state := { PipelineState.reset with dirty := true } }

/-- The state after the first flush of `cbW5`. -/
def cbW5f : CommandBufferState :=
  { cbW5 with pipeline_state := { cbW5.pipeline_state with dirty := false } }

/-- Witness for claim C5: a dirty state resolves once on the first call and
the second call is a no-op. -/
theorem flush_pipeline_state_idempotent_witness :
    CommandBufferState.flush_pipeline_state cbW5f VkPipelineBindPoint.compute
      = Except.ok (cbW5f, none) :=
  ((flush_pipeline_state_idempotent cbW5 VkPipelineBindPoint.compute (by decide)).2
    cbW5f (some VkPipelineBindPoint.compute) rfl).2

/-- Claim C6: after `next_subpass`, the subpass index is the previous value
plus one, the color-blend attachment list length equals the new subpass color
output count, the resource binding state is fully reset (no dirty bits, no
stale bindings) and the bound-descriptor-set-layout table is empty. -/
theorem next_subpass_state (cb : CommandBufferState) (rp : RenderPass)
    (h : cb.current_render_pass = some rp) :
    cb.next_subpass.pipeline_state.subpass_index = cb.pipeline_state.subpass_index + 1
    ∧ cb.next_subpass.pipeline_state.color_blend_state.attachments.length
        = rp.color_output_count (cb.pipeline_state.subpass_index + 1)
    ∧ cb.next_subpass.resource_binding_state = ResourceBindingState.reset
    ∧ cb.next_subpass.descriptor_set_layout_state = [] := by
  have hne : cb.pipeline_state.subpass_index ≠ cb.pipeline_state.subpass_index + 1 := by omega
  refine ⟨?_, ?_, rfl, rfl⟩
  · simp only [CommandBufferState.next_subpass, PipelineState.set_subpass_index, if_pos hne, h,
      PipelineState.set_color_blend_state]
    split <;> rfl
  · simp only [CommandBufferState.next_subpass, PipelineState.set_subpass_index, if_pos hne, h,
      PipelineState.set_color_blend_state]
    split
    · exact listResize_length _ _
    · rename_i heq
      push_neg at heq
      rw [heq]
      exact listResize_length _ _

/-- Concrete state for the subpass-transition witness. -/
def cbW6 : CommandBufferState :=
  { state := RecState.recording,
    pipeline_state :=
      { PipelineState.reset with
        color_blend_state := { attachments := [⟨false⟩] } },
    resource_binding_state :=
      { set_bindings := [(0, { resource_bindings := [(0, [(0, { buffer := some 3, range := 4 })])], dirty := true })],
        dirty := true },
    descriptor_set_layout_state := [(0, ⟨11, []⟩)],
    current_render_pass := some ⟨5, fun s => if s = 1 then 2 else 1⟩ }

/-- Witness for claim C6: entering subpass 1 (2 color outputs) from subpass 0
(1 color output) resizes the attachment list to 2 and clears all tracking. -/
theorem next_subpass_state_witness :
    cbW6.next_subpass.pipeline_state.subpass_index = 1
    ∧ cbW6.next_subpass.pipeline_state.color_blend_state.attachments.length = 2
    ∧ cbW6.next_subpass.resource_binding_state = ResourceBindingState.reset
    ∧ cbW6.next_subpass.descriptor_set_layout_state = [] :=
  next_subpass_state cbW6 ⟨5, fun s => if s = 1 then 2 else 1⟩ rfl

/-- Claim C7: `begin` while already recording returns a not-ready result and
leaves the in-progress recording state completely untouched; a successful
`begin` from Initial or Executable enters Recording and resets the pipeline
state, the resource binding state and the bound-layout table. -/
theorem begin_state_machine (cb : CommandBufferState) (prp : Option RenderPass) :
    (cb.state = RecState.recording →
       CommandBufferState.begin cb prp = (VkResult.notReady, cb))
    ∧ (cb.state = RecState.initial ∨ cb.state = RecState.executable →
       (CommandBufferState.begin cb prp).1 = VkResult.success
       ∧ (CommandBufferState.begin cb prp).2.state = RecState.recording
       ∧ (CommandBufferState.begin cb prp).2.pipeline_state = PipelineState.reset
       ∧ (CommandBufferState.begin cb prp).2.resource_binding_state = ResourceBindingState.reset
       ∧ (CommandBufferState.begin cb prp).2.descriptor_set_layout_state = []) := by
  constructor
  · intro h
    simp [CommandBufferState.begin, h]
  · intro h
    have hne : cb.state ≠ RecState.recording := by
      rcases h with h | h <;> simp [h]
    simp only [CommandBufferState.begin, if_neg hne]
    split <;> simp

/-- A command buffer captured mid-recording. -/
def cbW7rec : CommandBufferState :=
  { state := RecState.recording,
    pipeline_state := { PipelineState.reset with dirty := true, subpass_index := 2 },
    resource_binding_state := { set_bindings := [(1, { dirty := true })], dirty := true },
    descriptor_set_layout_state := [(1, ⟨9, []⟩)] }

/-- A freshly allocated command buffer. -/
def cbW7init : CommandBufferState := { state := RecState.initial }

/-- Witness for claim C7: the double `begin` returns not-ready and preserves
the first recording, and `begin` from Initial succeeds into Recording. -/
theorem begin_state_machine_witness :
    CommandBufferState.begin cbW7rec none = (VkResult.notReady, cbW7rec)
    ∧ (CommandBufferState.begin cbW7init none).1 = VkResult.success
    ∧ (CommandBufferState.begin cbW7init none).2.state = RecState.recording :=
  ⟨(begin_state_machine cbW7rec none).1 rfl,
   ((begin_state_machine cbW7init none).2 (Or.inl rfl)).1,
   ((begin_state_machine cbW7init none).2 (Or.inl rfl)).2.1⟩

/-- Claim C9: when the pipeline layout declares no push-constant range
covering the requested offset and size (stage lookup yields 0), the push is
skipped with a logged warning - the call completes normally and emits no
push-constant command. -/
theorem push_constants_missing_range (cb : CommandBufferState)
    (offset : Nat) (values : List Nat)
    (h : cb.pipeline_state.pipeline_layout.push_constant_range_stage offset values.length = 0) :
    cb.push_constants offset values
      = PushConstantsResult.skippedWithWarning offset values.length := by
  simp [CommandBufferState.push_constants, h]

/-- A recording state whose layout declares no push-constant ranges. -/
def cbW9 : CommandBufferState :=
  { state := RecState.recording,
    pipeline_state := { PipelineState.reset with pipeline_layout := ⟨3, [], fun _ _ => 0⟩ } }

/-- Witness for claim C9: a 8-byte push at offset 4 against a layout with no
ranges is skipped with a warning. -/
theorem push_constants_missing_range_witness :
    cbW9.push_constants 4 [1, 2, 3, 4, 5, 6, 7, 8]
      = PushConstantsResult.skippedWithWarning 4 8 :=
  push_constants_missing_range cbW9 4 [1, 2, 3, 4, 5, 6, 7, 8] rfl

/-!  Lemmas about the per-set flush loop. -/

/-- Follows the spec words (claims C1/C2): a set index gets exactly one
descriptor set resolved when it is present in the resource binding state,
dirty or marked as requiring an update, and declared by the pipeline layout. -/
def descriptorSetNeedsFlush (pl : PipelineLayout) (update_sets : List Nat)
    (sets : List (Nat × ResourceSet)) (s : Nat) : Bool :=
  match assocFind sets s with
  | some sb => (sb.dirty || update_sets.contains s) && pl.has_set_layout s
  | none => false

/-- Unfolding of the needs-flush predicate at the head key. -/
theorem descriptorSetNeedsFlush_cons_self (pl : PipelineLayout) (us : List Nat)
    (k : Nat) (sb : ResourceSet) (rest : List (Nat × ResourceSet)) :
    descriptorSetNeedsFlush pl us ((k, sb) :: rest) k
      = ((sb.dirty || us.contains k) && pl.has_set_layout k) := by
  simp [descriptorSetNeedsFlush, assocFind]

/-- The needs-flush predicate skips a head entry with a different key. -/
theorem descriptorSetNeedsFlush_cons_ne (pl : PipelineLayout) (us : List Nat)
    (k : Nat) (sb : ResourceSet) (rest : List (Nat × ResourceSet)) (s : Nat)
    (h : k ≠ s) :
    descriptorSetNeedsFlush pl us ((k, sb) :: rest) s
      = descriptorSetNeedsFlush pl us rest s := by
  simp [descriptorSetNeedsFlush, assocFind, h]

/-- A set index absent from the binding state never needs a flush. -/
theorem descriptorSetNeedsFlush_not_mem (pl : PipelineLayout) (us : List Nat)
    (L : List (Nat × ResourceSet)) (s : Nat) (h : s ∉ L.map Prod.fst) :
    descriptorSetNeedsFlush pl us L s = false := by
  simp [descriptorSetNeedsFlush, assocFind_eq_none_of_not_mem h]

/-- The per-set loop resolves one descriptor set per needed set index and none
for any other index. -/
theorem flushSets_count (pl : PipelineLayout) (us : List Nat)
    (L : List (Nat × ResourceSet)) (hnd : (L.map Prod.fst).Nodup) (s : Nat) :
    (flushSets pl us L).2.countP (fun r => r.set == s)
      = if descriptorSetNeedsFlush pl us L s then 1 else 0 := by
  induction L with
  | nil => simp [flushSets, descriptorSetNeedsFlush, assocFind]
  | cons p rest ih =>
    obtain ⟨k, sb⟩ := p
    simp only [List.map_cons, List.nodup_cons] at hnd
    have ihr := ih hnd.2
    by_cases hcond : (!sb.dirty && !(us.contains k)) = true
    · -- skipped set: neither dirty nor marked for update
      simp only [flushSets, if_pos hcond]
      rw [ihr]
      by_cases hs : k = s
      · subst hs
        have hd : sb.dirty = false := by
          revert hcond; cases sb.dirty <;> simp
        have hc : us.contains k = false := by
          revert hcond; cases us.contains k <;> simp
        rw [descriptorSetNeedsFlush_cons_self, hd, hc,
          descriptorSetNeedsFlush_not_mem pl us rest k hnd.1]
        simp
      · rw [descriptorSetNeedsFlush_cons_ne pl us k sb rest s hs]
    · -- processed set: dirty or marked for update
      have henter : (sb.dirty || us.contains k) = true := by
        revert hcond; cases sb.dirty <;> cases us.contains k <;> simp
      cases hdsl : pl.get_set_layout k with
      | none =>
        simp only [flushSets, if_neg hcond, hdsl]
        rw [ihr]
        by_cases hs : k = s
        · subst hs
          rw [descriptorSetNeedsFlush_cons_self, henter,
            descriptorSetNeedsFlush_not_mem pl us rest k hnd.1]
          simp [PipelineLayout.has_set_layout, hdsl]
        · rw [descriptorSetNeedsFlush_cons_ne pl us k sb rest s hs]
      | some dsl =>
        simp only [flushSets, if_neg hcond, hdsl, List.countP_cons]
        rw [ihr]
        by_cases hs : k = s
        · subst hs
          rw [descriptorSetNeedsFlush_cons_self, henter,
            descriptorSetNeedsFlush_not_mem pl us rest k hnd.1]
          simp [PipelineLayout.has_set_layout, hdsl]
        · rw [descriptorSetNeedsFlush_cons_ne pl us k sb rest s hs]
          have hks : ((k == s) = false) := by simpa using hs
          simp [hks]

/-- Claim C2: for any state of the binding engine (set keys unique, global
dirty flag covering every per-set dirty flag, as every `bind_*` sequence
maintains), the descriptor flush resolves exactly one descriptor set per set
index that is present, dirty-or-marked-for-update, and declared by the
pipeline layout, and zero for every other set index; and when the binding
state is not globally dirty and no set requires a layout update, the flush
performs no descriptor work at all. -/
theorem flush_descriptor_state_resolution_count (cb : CommandBufferState) (s : Nat)
    (hnd : (cb.resource_binding_state.set_bindings.map Prod.fst).Nodup)
    (hglob : cb.resource_binding_state.dirty = false →
       ∀ p ∈ cb.resource_binding_state.set_bindings, p.2.dirty = false) :
    (cb.flush_descriptor_state).2.countP (fun r => r.set == s)
      = (if descriptorSetNeedsFlush cb.pipeline_state.pipeline_layout
            (computeUpdateSets cb.pipeline_state.pipeline_layout cb.descriptor_set_layout_state)
            cb.resource_binding_state.set_bindings s then 1 else 0)
    ∧ (cb.resource_binding_state.dirty = false
        ∧ (computeUpdateSets cb.pipeline_state.pipeline_layout cb.descriptor_set_layout_state).isEmpty = true
        → (cb.flush_descriptor_state).2 = []) := by
  by_cases hcond : (cb.resource_binding_state.dirty
      || !(computeUpdateSets cb.pipeline_state.pipeline_layout cb.descriptor_set_layout_state).isEmpty) = true
  · constructor
    · simp only [CommandBufferState.flush_descriptor_state, if_pos hcond]
      exact flushSets_count _ _ _ hnd s
    · intro h
      rw [h.1, h.2] at hcond
      simp at hcond
  · have hdirty : cb.resource_binding_state.dirty = false := by
      revert hcond; cases cb.resource_binding_state.dirty <;> simp
    have hus : (computeUpdateSets cb.pipeline_state.pipeline_layout
        cb.descriptor_set_layout_state).isEmpty = true := by
      revert hcond
      cases (computeUpdateSets cb.pipeline_state.pipeline_layout
        cb.descriptor_set_layout_state).isEmpty <;> simp [hdirty]
    have husl : computeUpdateSets cb.pipeline_state.pipeline_layout
        cb.descriptor_set_layout_state = [] := List.isEmpty_iff.mp hus
    constructor
    · simp only [CommandBufferState.flush_descriptor_state, if_neg hcond, List.countP_nil]
      have hneed : descriptorSetNeedsFlush cb.pipeline_state.pipeline_layout
          (computeUpdateSets cb.pipeline_state.pipeline_layout cb.descriptor_set_layout_state)
          cb.resource_binding_state.set_bindings s = false := by
        unfold descriptorSetNeedsFlush
        cases hf : assocFind cb.resource_binding_state.set_bindings s with
        | none => rfl
        | some sb =>
          have hmem := mem_of_assocFind_eq_some hf
          have hsb : sb.dirty = false := hglob hdirty _ hmem
          simp [hsb, husl]
      rw [hneed]
      simp
    · intro _
      simp only [CommandBufferState.flush_descriptor_state, if_neg hcond]

/-- A member of a Nat list is found by `contains`. -/
theorem nat_contains_of_mem {l : List Nat} {a : Nat} (h : a ∈ l) :
    l.contains a = true :=
  List.elem_eq_true_of_mem h

/-- A set bound before with a layout object of different identity than the one
the pipeline layout now declares for that index is marked for update. -/
theorem computeUpdateSets_mem (pl : PipelineLayout)
    (dsls : List (Nat × DescriptorSetLayout))
    {s : Nat} {bound cur : DescriptorSetLayout}
    (hb : assocFind dsls s = some bound)
    (hc : pl.get_set_layout s = some cur)
    (hne : bound.handle ≠ cur.handle) :
    s ∈ computeUpdateSets pl dsls := by
  have hm : (s, cur) ∈ pl.set_layouts := mem_of_assocFind_eq_some hc
  have hm2 : (s, cur.bindings) ∈ pl.get_bindings := by
    simp only [PipelineLayout.get_bindings, List.mem_map]
    exact ⟨(s, cur), hm, rfl⟩
  simp only [computeUpdateSets, List.mem_filterMap]
  exact ⟨(s, cur.bindings), hm2, by simp [hb, hc, hne]⟩

/-- A set present in the binding state, marked for update and declared by the
pipeline layout is resolved and bound by the per-set loop, with the declared
layout. -/
theorem flushSets_mem_of_update (pl : PipelineLayout) (us : List Nat)
    (L : List (Nat × ResourceSet)) {s : Nat} {sb : ResourceSet}
    {dsl : DescriptorSetLayout}
    (hfind : assocFind L s = some sb)
    (hus : us.contains s = true)
    (hdsl : pl.get_set_layout s = some dsl) :
    ∃ r ∈ (flushSets pl us L).2, r.set = s ∧ r.layout = dsl := by
  induction L with
  | nil => simp [assocFind] at hfind
  | cons p rest ih =>
    obtain ⟨k, sbk⟩ := p
    simp only [assocFind] at hfind
    by_cases hk : k = s
    · subst hk
      rw [if_pos rfl] at hfind
      injection hfind with h2
      subst h2
      have hcond : (!sbk.dirty && !(us.contains k)) = false := by
        rw [hus]; cases sbk.dirty <;> rfl
      simp only [flushSets, hcond, Bool.false_eq_true, if_false, hdsl]
      exact ⟨_, List.mem_cons_self _ _, rfl, rfl⟩
    · rw [if_neg hk] at hfind
      obtain ⟨r, hr, hrs⟩ := ih hfind
      by_cases hcond : (!sbk.dirty && !(us.contains k)) = true
      · exact ⟨r, by simp only [flushSets, if_pos hcond]; exact hr, hrs⟩
      · cases hdk : pl.get_set_layout k with
        | none =>
          exact ⟨r, by simp only [flushSets, if_neg hcond, hdk]; exact hr, hrs⟩
        | some d =>
          exact ⟨r, by simp only [flushSets, if_neg hcond, hdk]
                       exact List.mem_cons_of_mem _ hr, hrs⟩

/-- Claim C1: a set index that is tracked in the bound-layout table with a
layout identity different from the one the current pipeline layout declares
for that index, and whose bindings are still present in the resource binding
state, is re-resolved and rebound by the descriptor flush (one record = one
resolution plus one bind), even with no dirty bindings for that set. -/
theorem flush_descriptor_state_layout_change_rebinds (cb : CommandBufferState)
    {s : Nat} {sb : ResourceSet} {bound cur : DescriptorSetLayout}
    (hrbs : assocFind cb.resource_binding_state.set_bindings s = some sb)
    (hbound : assocFind cb.descriptor_set_layout_state s = some bound)
    (hcur : cb.pipeline_state.pipeline_layout.get_set_layout s = some cur)
    (hne : bound.handle ≠ cur.handle) :
    ∃ r ∈ (cb.flush_descriptor_state).2, r.set = s ∧ r.layout = cur := by
  have hmemus : s ∈ computeUpdateSets cb.pipeline_state.pipeline_layout
      cb.descriptor_set_layout_state :=
    computeUpdateSets_mem _ _ hbound hcur hne
  have hcontains := nat_contains_of_mem hmemus
  have hnonempty : (computeUpdateSets cb.pipeline_state.pipeline_layout
      cb.descriptor_set_layout_state).isEmpty = false := by
    cases h : computeUpdateSets cb.pipeline_state.pipeline_layout
        cb.descriptor_set_layout_state with
    | nil => rw [h] at hmemus; cases hmemus
    | cons a l => rfl
  have hcond : (cb.resource_binding_state.dirty
      || !(computeUpdateSets cb.pipeline_state.pipeline_layout
            cb.descriptor_set_layout_state).isEmpty) = true := by
    rw [hnonempty]; cases cb.resource_binding_state.dirty <;> rfl
  simp only [CommandBufferState.flush_descriptor_state, if_pos hcond]
  exact flushSets_mem_of_update _ _ _ hrbs hcontains hcur

/-!  Claim C8: what really happens to the per-set dirty flag of a dirty set
the pipeline layout does not declare. -/

/-- Every set the per-set loop enters (dirty or marked for update) ends with
its per-set dirty flag cleared - including sets the pipeline layout does not
declare, because the source clears the flag before the set-layout check. -/
theorem flushSets_find_of_entered (pl : PipelineLayout) (us : List Nat)
    (L : List (Nat × ResourceSet)) {s : Nat} {sb : ResourceSet}
    (hfind : assocFind L s = some sb)
    (henter : (sb.dirty || us.contains s) = true) :
    assocFind (flushSets pl us L).1 s = some { sb with dirty := false } := by
  induction L with
  | nil => simp [assocFind] at hfind
  | cons p rest ih =>
    obtain ⟨k, sbk⟩ := p
    simp only [assocFind] at hfind
    by_cases hk : k = s
    · subst hk
      rw [if_pos rfl] at hfind
      injection hfind with h2
      subst h2
      have hcond : (!sbk.dirty && !(us.contains k)) = false := by
        revert henter; cases sbk.dirty <;> cases us.contains k <;> simp
      cases hdk : pl.get_set_layout k with
      | none =>
        simp only [flushSets, hcond, Bool.false_eq_true, if_false, hdk, assocFind, if_pos rfl,
          eq_self_iff_true, if_true]
      | some d =>
        simp only [flushSets, hcond, Bool.false_eq_true, if_false, hdk, assocFind, if_pos rfl,
          eq_self_iff_true, if_true]
    · rw [if_neg hk] at hfind
      have ihr := ih hfind
      by_cases hcond : (!sbk.dirty && !(us.contains k)) = true
      · simp only [flushSets, if_pos hcond, assocFind]
        rw [if_neg hk]
        exact ihr
      · cases hdk : pl.get_set_layout k with
        | none =>
          simp only [flushSets, if_neg hcond, hdk, assocFind]
          rw [if_neg hk]
          exact ihr
        | some d =>
          simp only [flushSets, if_neg hcond, hdk, assocFind]
          rw [if_neg hk]
          exact ihr

/-- The per-set loop never produces a record for a set index the pipeline
layout does not declare. -/
theorem flushSets_no_record_of_undeclared (pl : PipelineLayout) (us : List Nat)
    (L : List (Nat × ResourceSet)) {s : Nat}
    (h : pl.get_set_layout s = none) :
    (flushSets pl us L).2.countP (fun r => r.set == s) = 0 := by
  induction L with
  | nil => simp [flushSets]
  | cons p rest ih =>
    obtain ⟨k, sbk⟩ := p
    by_cases hcond : (!sbk.dirty && !(us.contains k)) = true
    · simp only [flushSets, if_pos hcond]
      exact ih
    · cases hdk : pl.get_set_layout k with
      | none =>
        simp only [flushSets, if_neg hcond, hdk]
        exact ih
      | some d =>
        have hk : k ≠ s := by
          intro hks
          rw [hks, h] at hdk
          cases hdk
        simp only [flushSets, if_neg hcond, hdk, List.countP_cons]
        have hks : ((k == s) = false) := by simpa using hk
        simp [hks, ih]

/-- Claim C8 (amended): when the flush runs and reaches a dirty (or
marked-for-update) set the pipeline layout does not declare, it skips the set
without resolving or binding anything for it, but only after clearing the
per-set dirty flag - the flag ends up clean, not still dirty. -/
theorem flush_clears_dirty_of_undeclared_set (cb : CommandBufferState)
    {s : Nat} {sb : ResourceSet}
    (hfind : assocFind cb.resource_binding_state.set_bindings s = some sb)
    (henter : (sb.dirty
        || (computeUpdateSets cb.pipeline_state.pipeline_layout
              cb.descriptor_set_layout_state).contains s) = true)
    (hundecl : cb.pipeline_state.pipeline_layout.get_set_layout s = none)
    (hflush : (cb.resource_binding_state.dirty
        || !(computeUpdateSets cb.pipeline_state.pipeline_layout
              cb.descriptor_set_layout_state).isEmpty) = true) :
    assocFind (cb.flush_descriptor_state).1.resource_binding_state.set_bindings s
      = some { sb with dirty := false }
    ∧ (cb.flush_descriptor_state).2.countP (fun r => r.set == s) = 0 := by
  simp only [CommandBufferState.flush_descriptor_state, if_pos hflush]
  exact ⟨flushSets_find_of_entered _ _ _ hfind henter,
    flushSets_no_record_of_undeclared _ _ _ hundecl⟩

/-!  Concrete fixtures for the descriptor-flush witnesses. -/

/-- A set layout with a dynamic uniform buffer and a combined image sampler. -/
def dslL1 : DescriptorSetLayout :=
  ⟨11, [(0, VkDescriptorType.uniformBufferDynamic), (1, VkDescriptorType.combinedImageSampler)]⟩

/-- A differently-shaped set layout (plain uniform buffer). -/
def dslL2 : DescriptorSetLayout := ⟨22, [(0, VkDescriptorType.uniformBuffer)]⟩

/-- Pipeline layout A: set 0 has layout `dslL1`. -/
def plA : PipelineLayout := ⟨100, [(0, dslL1)], fun _ _ => 0⟩

/-- Pipeline layout B: set 0 has layout `dslL2`. -/
def plB : PipelineLayout := ⟨200, [(0, dslL2)], fun _ _ => 0⟩

/-- A color image view. -/
def iv1 : CoreImageView := ⟨41, VkFormat.r8g8b8a8Unorm⟩

/-- Set 0 bindings after earlier `bind_buffer`/`bind_image` calls, already
flushed (clean). -/
def rsW1 : ResourceSet :=
  { resource_bindings :=
      [(0, [(0, { buffer := some 7, offset := 64, range := 16 })]),
       (1, [(0, { image_view := some iv1, sampler := some 9 })])],
    dirty := false }

/-- The state of claim C1: pipeline layout B is now bound, set 0 was resolved
against layout `dslL1` of pipeline layout A earlier, and no binding is dirty. -/
def cbW1 : CommandBufferState :=
  { state := RecState.recording,
    pipeline_state := { PipelineState.reset with pipeline_layout := plB },
    resource_binding_state := { set_bindings := [(0, rsW1)], dirty := false },
    descriptor_set_layout_state := [(0, dslL1)] }

/-- Witness for claim C1: with zero dirty bindings, the flush still resolves
and rebinds set 0 with the new layout `dslL2` because the layout identity
changed. -/
theorem flush_descriptor_state_layout_change_rebinds_witness :
    ∃ r ∈ (cbW1.flush_descriptor_state).2, r.set = 0 ∧ r.layout = dslL2 :=
  flush_descriptor_state_layout_change_rebinds cbW1 rfl rfl rfl (by decide)

/-- Set layout for witness set 0. -/
def dslA0 : DescriptorSetLayout := ⟨31, [(0, VkDescriptorType.uniformBuffer)]⟩

/-- Set layout for witness set 1. -/
def dslA1 : DescriptorSetLayout := ⟨32, [(0, VkDescriptorType.combinedImageSampler)]⟩

/-- Pipeline layout declaring sets 0 and 1 (but not 5). -/
def plW2 : PipelineLayout := ⟨10, [(0, dslA0), (1, dslA1)], fun _ _ => 0⟩

/-- The state of claim C2: set 0 dirty and declared, set 1 clean and declared,
set 5 dirty but undeclared. -/
def cbW2 : CommandBufferState :=
  { state := RecState.recording,
    pipeline_state := { PipelineState.reset with pipeline_layout := plW2 },
    resource_binding_state :=
      { set_bindings :=
          [(0, { resource_bindings := [(0, [(0, { buffer := some 7, range := 16 })])], dirty := true }),
           (1, { resource_bindings := [(0, [(0, { image_view := some iv1, sampler := some 9 })])], dirty := false }),
           (5, { resource_bindings := [(0, [(0, { buffer := some 8, range := 4 })])], dirty := true })],
        dirty := true } }

/-- Witness for claim C2: exactly one resolution for the dirty declared set 0,
none for the clean set 1, none for the undeclared set 5. -/
theorem flush_descriptor_state_resolution_count_witness :
    (cbW2.flush_descriptor_state).2.countP (fun r => r.set == 0) = 1
    ∧ (cbW2.flush_descriptor_state).2.countP (fun r => r.set == 1) = 0
    ∧ (cbW2.flush_descriptor_state).2.countP (fun r => r.set == 5) = 0 := by
  refine ⟨?_, ?_, ?_⟩
  · rw [(flush_descriptor_state_resolution_count cbW2 0 (by decide) (by decide)).1]
    rfl
  · rw [(flush_descriptor_state_resolution_count cbW2 1 (by decide) (by decide)).1]
    rfl
  · rw [(flush_descriptor_state_resolution_count cbW2 5 (by decide) (by decide)).1]
    rfl

/-- The dirty set of the claim C8 counterexample. -/
def rsC8 : ResourceSet :=
  { resource_bindings := [(0, [(0, { buffer := some 7, range := 16 })])], dirty := true }

/-- The state of claim C8: resource set 5 is dirty, but the bound pipeline
layout declares no set at all. -/
def cbC8 : CommandBufferState :=
  { state := RecState.recording,
    pipeline_state := { PipelineState.reset with pipeline_layout := ⟨1, [], fun _ _ => 0⟩ },
    resource_binding_state := { set_bindings := [(5, rsC8)], dirty := true } }

/-- Counterexample to claim C8 as stated: before the flush, set 5 is dirty and
undeclared; the flush resolves nothing for it, yet its per-set dirty flag is
cleared (false afterwards), not left dirty - because the source clears the
flag before the set-layout declaration check. -/
theorem flush_undeclared_set_dirty_flag_counterexample :
    (assocFind cbC8.resource_binding_state.set_bindings 5).map ResourceSet.dirty = some true
    ∧ cbC8.pipeline_state.pipeline_layout.has_set_layout 5 = false
    ∧ (cbC8.flush_descriptor_state).2 = []
    ∧ (assocFind (cbC8.flush_descriptor_state).1.resource_binding_state.set_bindings 5).map
        ResourceSet.dirty = some false :=
  ⟨rfl, rfl, rfl, rfl⟩

/-- Witness for the amended claim C8: the undeclared dirty set is skipped with
no resolution, and its dirty flag is cleared. -/
theorem flush_clears_dirty_of_undeclared_set_witness :
    assocFind (cbC8.flush_descriptor_state).1.resource_binding_state.set_bindings 5
      = some { rsC8 with dirty := false }
    ∧ (cbC8.flush_descriptor_state).2.countP (fun r => r.set == 5) = 0 :=
  flush_clears_dirty_of_undeclared_set cbC8 rfl rfl rfl rfl

/-!  Claim C3: dynamic buffer offsets. -/

/-- Follows the spec words (claim C3): the dynamic offsets contributed by one
binding - the real offsets of its present buffer entries when the declared
type is a dynamic buffer-descriptor type, in element-iteration order. -/
def dynOffsetsOfBinding (dsl : DescriptorSetLayout)
    (p : Nat × List (Nat × ResourceInfo)) : List Nat :=
  match dsl.get_layout_binding p.1 with
  | some t =>
    if is_buffer_descriptor_type t && is_dynamic_buffer_descriptor_type t then
      p.2.filterMap fun q => if q.2.buffer.isSome then some q.2.offset else none
    else []
  | none => []

/-- Follows the spec words (claim C3): all dynamic offsets of one set, one per
processed dynamic buffer entry, in binding-iteration order. -/
def specDynamicOffsets (dsl : DescriptorSetLayout) :
    List (Nat × List (Nat × ResourceInfo)) → List Nat
  | [] => []
  | p :: rest => dynOffsetsOfBinding dsl p ++ specDynamicOffsets dsl rest

/-- One element appends its offset to the dynamic-offset list exactly when it
is a present buffer entry at a dynamic buffer-descriptor binding. -/
theorem processElement_dynamic_offsets (t : VkDescriptorType) (b e : Nat)
    (r : ResourceInfo) (acc : SetFlushAcc) :
    (processElement t b e r acc).dynamic_offsets
      = acc.dynamic_offsets
        ++ (if r.buffer.isSome && (is_buffer_descriptor_type t && is_dynamic_buffer_descriptor_type t)
            then [r.offset] else []) := by
  rcases r with ⟨rb, ro, rr, riv, rs⟩
  cases rb <;> cases riv <;> cases rs <;> cases t <;>
    simp [processElement, is_buffer_descriptor_type, is_dynamic_buffer_descriptor_type]

/-- Folding one binding worth of elements appends the offsets of its present
buffer entries, in order, when the binding type is dynamic. -/
theorem foldl_processElement_dynamic_offsets (t : VkDescriptorType) (b : Nat)
    (elems : List (Nat × ResourceInfo)) (acc : SetFlushAcc) :
    (elems.foldl (fun a p => processElement t b p.1 p.2 a) acc).dynamic_offsets
      = acc.dynamic_offsets
        ++ (if is_buffer_descriptor_type t && is_dynamic_buffer_descriptor_type t
            then elems.filterMap fun q => if q.2.buffer.isSome then some q.2.offset else none
            else []) := by
  induction elems generalizing acc with
  | nil =>
    cases h : (is_buffer_descriptor_type t && is_dynamic_buffer_descriptor_type t) <;> simp [h]
  | cons q rest ih =>
    simp only [List.foldl_cons]
    rw [ih, processElement_dynamic_offsets]
    cases hcond : (is_buffer_descriptor_type t && is_dynamic_buffer_descriptor_type t) with
    | false => simp [hcond]
    | true =>
      simp only [hcond, Bool.and_true, List.filterMap_cons]
      cases hq : q.2.buffer.isSome with
      | true => simp [hq, List.append_assoc]
      | false => simp [hq]

/-- The full binding walk produces exactly the dynamic offsets the spec
describes, in binding-declaration (iteration) order. -/
theorem processBindings_dynamic_offsets (dsl : DescriptorSetLayout)
    (bindings : List (Nat × List (Nat × ResourceInfo))) (acc : SetFlushAcc) :
    (processBindings dsl bindings acc).dynamic_offsets
      = acc.dynamic_offsets ++ specDynamicOffsets dsl bindings := by
  induction bindings generalizing acc with
  | nil => simp [processBindings, specDynamicOffsets]
  | cons p rest ih =>
    obtain ⟨bidx, elems⟩ := p
    cases hlb : dsl.get_layout_binding bidx with
    | none =>
      simp only [processBindings, hlb, specDynamicOffsets, dynOffsetsOfBinding]
      rw [ih]
      simp [hlb]
    | some t =>
      simp only [processBindings, hlb, specDynamicOffsets, dynOffsetsOfBinding]
      rw [ih, foldl_processElement_dynamic_offsets]
      simp [hlb, List.append_assoc]

/-- Every stored buffer info of a binding declared with a dynamic
buffer-descriptor type has a zero offset. -/
def bufferInfosDynZero (dsl : DescriptorSetLayout)
    (m : BindingMap VkDescriptorBufferInfo) : Prop :=
  ∀ b e info, bmFind m b e = some info →
    ∀ t, dsl.get_layout_binding b = some t →
      is_dynamic_buffer_descriptor_type t = true → info.offset = 0

/-- Lookup after a binding-map insert. -/
theorem bmFind_bmInsert {α : Type} (m : BindingMap α) (b e b2 e2 : Nat) (x : α) :
    bmFind (bmInsert b e x m) b2 e2
      = if b = b2 then (if e = e2 then some x else bmFind m b e2)
        else bmFind m b2 e2 := by
  simp only [bmFind, bmInsert, assocFind_assocInsert]
  by_cases hb : b = b2
  · rw [if_pos hb, if_pos hb]
    subst hb
    simp only [Option.some_bind]
    rw [assocFind_assocInsert]
    by_cases he : e = e2
    · rw [if_pos he, if_pos he]
    · rw [if_neg he, if_neg he]
      cases hm : assocFind m b with
      | none => simp [hm, assocFind]
      | some inner => simp [hm]
  · rw [if_neg hb, if_neg hb]

/-- The empty map satisfies the zero-offset invariant. -/
theorem bufferInfosDynZero_empty (dsl : DescriptorSetLayout) :
    bufferInfosDynZero dsl BindingMap.empty := by
  intro b e info hfind
  simp [bmFind, BindingMap.empty, assocFind] at hfind

/-- The buffer-info map after one element: unchanged, or extended at the
element coordinate with the entry offset - zeroed exactly when the binding
type is dynamic. -/
theorem processElement_buffer_infos_cases (t : VkDescriptorType) (b e : Nat)
    (r : ResourceInfo) (acc : SetFlushAcc) :
    (processElement t b e r acc).buffer_infos = acc.buffer_infos
    ∨ ∃ bv, r.buffer = some bv ∧ is_buffer_descriptor_type t = true ∧
        (processElement t b e r acc).buffer_infos
          = bmInsert b e
              { buffer := bv,
                offset := if is_dynamic_buffer_descriptor_type t then 0 else r.offset,
                range := r.range } acc.buffer_infos := by
  rcases r with ⟨rb, ro, rr, riv, rs⟩
  cases rb <;> cases riv <;> cases rs <;> cases t <;>
    simp [processElement, is_buffer_descriptor_type, is_dynamic_buffer_descriptor_type]

/-- One element preserves the zero-offset invariant when its binding type
matches the declared one. -/
theorem processElement_preserves_dynZero (dsl : DescriptorSetLayout)
    (t : VkDescriptorType) (b e : Nat) (r : ResourceInfo) (acc : SetFlushAcc)
    (ht : dsl.get_layout_binding b = some t)
    (hPre : bufferInfosDynZero dsl acc.buffer_infos) :
    bufferInfosDynZero dsl (processElement t b e r acc).buffer_infos := by
  rcases processElement_buffer_infos_cases t b e r acc with h | ⟨bv, hb, hbt, h⟩
  · rw [h]; exact hPre
  · rw [h]
    intro b2 e2 info hfind t2 ht2 hdyn2
    rw [bmFind_bmInsert] at hfind
    by_cases hbb : b = b2
    · rw [if_pos hbb] at hfind
      by_cases hee : e = e2
      · rw [if_pos hee] at hfind
        injection hfind with h3
        subst hbb
        rw [ht] at ht2
        injection ht2 with h4
        subst h4
        rw [← h3]
        simp [hdyn2]
      · rw [if_neg hee] at hfind
        subst hbb
        exact hPre _ _ _ hfind _ ht2 hdyn2
    · rw [if_neg hbb] at hfind
      exact hPre _ _ _ hfind _ ht2 hdyn2

/-- The element fold of one binding preserves the zero-offset invariant. -/
theorem foldl_processElement_preserves_dynZero (dsl : DescriptorSetLayout)
    (t : VkDescriptorType) (b : Nat) (elems : List (Nat × ResourceInfo))
    (acc : SetFlushAcc) (ht : dsl.get_layout_binding b = some t)
    (hPre : bufferInfosDynZero dsl acc.buffer_infos) :
    bufferInfosDynZero dsl
      ((elems.foldl (fun a p => processElement t b p.1 p.2 a) acc).buffer_infos) := by
  induction elems generalizing acc with
  | nil => exact hPre
  | cons q rest ih =>
    simp only [List.foldl_cons]
    exact ih _ (processElement_preserves_dynZero dsl t b q.1 q.2 acc ht hPre)

/-- The binding walk preserves the zero-offset invariant. -/
theorem processBindings_preserves_dynZero (dsl : DescriptorSetLayout)
    (bindings : List (Nat × List (Nat × ResourceInfo))) (acc : SetFlushAcc)
    (hPre : bufferInfosDynZero dsl acc.buffer_infos) :
    bufferInfosDynZero dsl (processBindings dsl bindings acc).buffer_infos := by
  induction bindings generalizing acc with
  | nil => exact hPre
  | cons p rest ih =>
    obtain ⟨bidx, elems⟩ := p
    cases hlb : dsl.get_layout_binding bidx with
    | none =>
      simp only [processBindings, hlb]
      exact ih _ hPre
    | some t =>
      simp only [processBindings, hlb]
      exact ih _ (foldl_processElement_preserves_dynZero dsl t bidx elems acc hlb hPre)

/-- Claim C3: every descriptor set resolved by the per-set flush carries, for
each dynamic buffer-descriptor binding, a zero offset in its descriptor
buffer info, and the real offsets appear in its dynamic-offset list, one per
processed dynamic buffer entry, in binding-iteration (declaration) order. -/
theorem flush_dynamic_offsets (pl : PipelineLayout) (us : List Nat)
    (L : List (Nat × ResourceSet)) :
    ∀ r ∈ (flushSets pl us L).2,
      (∃ sb, (r.set, sb) ∈ L
         ∧ r.dynamic_offsets = specDynamicOffsets r.layout sb.resource_bindings)
      ∧ bufferInfosDynZero r.layout r.buffer_infos := by
  induction L with
  | nil => intro r hr; simp [flushSets] at hr
  | cons p rest ih =>
    obtain ⟨k, sbk⟩ := p
    intro r hr
    by_cases hcond : (!sbk.dirty && !(us.contains k)) = true
    · simp only [flushSets, if_pos hcond] at hr
      obtain ⟨⟨sb, hmem, heq⟩, hz⟩ := ih r hr
      exact ⟨⟨sb, List.mem_cons_of_mem _ hmem, heq⟩, hz⟩
    · cases hdk : pl.get_set_layout k with
      | none =>
        simp only [flushSets, if_neg hcond, hdk] at hr
        obtain ⟨⟨sb, hmem, heq⟩, hz⟩ := ih r hr
        exact ⟨⟨sb, List.mem_cons_of_mem _ hmem, heq⟩, hz⟩
      | some d =>
        simp only [flushSets, if_neg hcond, hdk] at hr
        rcases List.mem_cons.1 hr with h1 | h1
        · subst h1
          constructor
          · refine ⟨sbk, List.mem_cons_self _ _, ?_⟩
            show (processBindings d sbk.resource_bindings {}).dynamic_offsets
              = specDynamicOffsets d sbk.resource_bindings
            rw [processBindings_dynamic_offsets]
            rfl
          · exact processBindings_preserves_dynZero d _ _ (bufferInfosDynZero_empty d)
        · obtain ⟨⟨sb, hmem, heq⟩, hz⟩ := ih r h1
          exact ⟨⟨sb, List.mem_cons_of_mem _ hmem, heq⟩, hz⟩

/-- The dirty set of the claim C3 witness: a dynamic uniform buffer at binding
0 (offset 64) and a combined image sampler at binding 1. -/
def rsW3 : ResourceSet :=
  { resource_bindings :=
      [(0, [(0, { buffer := some 7, offset := 64, range := 16 })]),
       (1, [(0, { image_view := some iv1, sampler := some 9 })])],
    dirty := true }

/-- The record the per-set loop produces for `rsW3` under layout `dslL1`. -/
def recW3 : SetFlushRecord :=
  { set := 0, layout := dslL1,
    buffer_infos := [(0, [(0, { buffer := 7, offset := 0, range := 16 })])],
    image_infos := [(1, [(0, { sampler := 9, imageView := 41, imageLayout := VkImageLayout.shaderReadOnlyOptimal })])],
    dynamic_offsets := [64],
    null_derefs := 0 }

/-- Witness for claim C3: the resolved record stores the dynamic buffer with
offset zero and carries the real offset 64 in its dynamic-offset list. -/
theorem flush_dynamic_offsets_witness :
    (∃ sb, (recW3.set, sb) ∈ [(0, rsW3)]
       ∧ recW3.dynamic_offsets = specDynamicOffsets recW3.layout sb.resource_bindings)
    ∧ bufferInfosDynZero recW3.layout recW3.buffer_infos := by
  have hmem : recW3 ∈ (flushSets plA [] [(0, rsW3)]).2 := by
    have h : (flushSets plA [] [(0, rsW3)]).2 = [recW3] := rfl
    rw [h]
    exact List.mem_singleton.mpr rfl
  exact flush_dynamic_offsets plA [] [(0, rsW3)] recW3 hmem

/-!  Claim C4: image-layout derivation. -/

/-- Claim C4: for an image or input-attachment entry (image view present, no
buffer), the recorded image layout is derived from the declared descriptor
type - depth-stencil-read-only for combined-image-sampler and
input-attachment bindings on depth/stencil formats and shader-read-only
otherwise, general for storage images regardless of format - and any other
descriptor type produces no image-info record at all. -/
theorem processElement_image_layout (t : VkDescriptorType) (b e : Nat)
    (r : ResourceInfo) (acc : SetFlushAcc) (v : CoreImageView)
    (hv : r.image_view = some v) (hb : r.buffer = none) :
    ((t = VkDescriptorType.combinedImageSampler ∨ t = VkDescriptorType.inputAttachment) →
       (processElement t b e r acc).image_infos
         = bmInsert b e
             { sampler := r.sampler.getD 0, imageView := v.handle,
               imageLayout := if is_depth_stencil_format v.format then
                   VkImageLayout.depthStencilReadOnlyOptimal
                 else VkImageLayout.shaderReadOnlyOptimal } acc.image_infos)
    ∧ (t = VkDescriptorType.storageImage →
       (processElement t b e r acc).image_infos
         = bmInsert b e
             { sampler := r.sampler.getD 0, imageView := v.handle,
               imageLayout := VkImageLayout.general } acc.image_infos)
    ∧ (t ≠ VkDescriptorType.combinedImageSampler →
       t ≠ VkDescriptorType.inputAttachment →
       t ≠ VkDescriptorType.storageImage →
       processElement t b e r acc = acc) := by
  cases t <;>
    simp [processElement, hb, hv, is_buffer_descriptor_type]

/-- A depth image entry (depth/stencil format, with sampler). -/
def rD : ResourceInfo :=
  { image_view := some ⟨51, VkFormat.d32Sfloat⟩, sampler := some 9 }

/-- A color image entry. -/
def rC : ResourceInfo := { image_view := some iv1, sampler := some 9 }

/-- Witness for claim C4: a depth view on a combined-image-sampler binding
gets the depth-stencil-read-only layout, a color view on a storage-image
binding gets the general layout, and a sampled-image binding records
nothing. -/
theorem processElement_image_layout_witness :
    (processElement VkDescriptorType.combinedImageSampler 1 0 rD {}).image_infos
      = bmInsert 1 0 { sampler := 9, imageView := 51, imageLayout := VkImageLayout.depthStencilReadOnlyOptimal } BindingMap.empty
    ∧ (processElement VkDescriptorType.storageImage 1 0 rC {}).image_infos
      = bmInsert 1 0 { sampler := 9, imageView := 41, imageLayout := VkImageLayout.general } BindingMap.empty
    ∧ processElement VkDescriptorType.sampledImage 1 0 rC {} = {} :=
  ⟨(processElement_image_layout _ 1 0 rD {} _ rfl rfl).1 (Or.inl rfl),
   (processElement_image_layout _ 1 0 rC {} _ rfl rfl).2.1 rfl,
   (processElement_image_layout _ 1 0 rC {} _ rfl rfl).2.2 (by decide) (by decide) (by decide)⟩

/-!  Claim C10: no null image-view dereference for states built through the
public binding interface. -/

/-- An entry is well formed when it has an image view or no sampler - exactly
what every entry stored by `bind_buffer` / `bind_image` / `bind_input`
satisfies. -/
def ResourceInfo.wfB (r : ResourceInfo) : Bool :=
  r.image_view.isSome || r.sampler.isNone

/-- All entries of a set are well formed. -/
def ResourceSet.wfB (sb : ResourceSet) : Bool :=
  sb.resource_bindings.all fun p => p.2.all fun q => q.2.wfB

/-- All entries of the binding state are well formed. -/
def ResourceBindingState.wfB (rbs : ResourceBindingState) : Bool :=
  rbs.set_bindings.all fun p => p.2.wfB

/-- A well-formed element never takes the null-image-view path. -/
theorem processElement_null_derefs_of_wf (t : VkDescriptorType) (b e : Nat)
    (r : ResourceInfo) (acc : SetFlushAcc) (h : r.wfB = true) :
    (processElement t b e r acc).null_derefs = acc.null_derefs := by
  rcases r with ⟨rb, ro, rr, riv, rs⟩
  cases rb <;> cases riv <;> cases rs <;> cases t <;>
    simp_all [processElement, ResourceInfo.wfB, is_buffer_descriptor_type,
      is_dynamic_buffer_descriptor_type]

/-- Folding the elements of one binding preserves the dereference count when
all elements are well formed. -/
theorem foldl_processElement_null_derefs (t : VkDescriptorType) (b : Nat)
    (elems : List (Nat × ResourceInfo)) (acc : SetFlushAcc)
    (h : (elems.all fun q => q.2.wfB) = true) :
    (elems.foldl (fun a p => processElement t b p.1 p.2 a) acc).null_derefs
      = acc.null_derefs := by
  induction elems generalizing acc with
  | nil => rfl
  | cons q rest ih =>
    rw [List.all_cons] at h
    obtain ⟨hq, hrest⟩ := by simpa using h
    simp only [List.foldl_cons]
    rw [ih _ (by simpa using hrest), processElement_null_derefs_of_wf _ _ _ _ _ hq]

/-- The binding walk of a well-formed set performs no null dereference. -/
theorem processBindings_null_derefs (dsl : DescriptorSetLayout)
    (bindings : List (Nat × List (Nat × ResourceInfo))) (acc : SetFlushAcc)
    (h : (bindings.all fun p => p.2.all fun q => q.2.wfB) = true) :
    (processBindings dsl bindings acc).null_derefs = acc.null_derefs := by
  induction bindings generalizing acc with
  | nil => rfl
  | cons p rest ih =>
    obtain ⟨bidx, elems⟩ := p
    rw [List.all_cons] at h
    obtain ⟨hp, hrest⟩ := by simpa using h
    cases hlb : dsl.get_layout_binding bidx with
    | none =>
      simp only [processBindings, hlb]
      exact ih _ (by simpa using hrest)
    | some t =>
      simp only [processBindings, hlb]
      rw [ih _ (by simpa using hrest), foldl_processElement_null_derefs _ _ _ _ (by simpa using hp)]

/-- Every record of the per-set loop over well-formed sets has a zero
null-dereference count. -/
theorem flushSets_null_derefs (pl : PipelineLayout) (us : List Nat)
    (L : List (Nat × ResourceSet))
    (h : ∀ p ∈ L, ResourceSet.wfB p.2 = true) :
    ∀ rec ∈ (flushSets pl us L).2, rec.null_derefs = 0 := by
  induction L with
  | nil => intro rec hrec; simp [flushSets] at hrec
  | cons p rest ih =>
    obtain ⟨k, sbk⟩ := p
    have hhead : sbk.wfB = true := h _ (List.mem_cons_self _ _)
    have hrest : ∀ q ∈ rest, ResourceSet.wfB q.2 = true :=
      fun q hq => h q (List.mem_cons_of_mem _ hq)
    intro rec hrec
    by_cases hcond : (!sbk.dirty && !(us.contains k)) = true
    · simp only [flushSets, if_pos hcond] at hrec
      exact ih hrest rec hrec
    · cases hdk : pl.get_set_layout k with
      | none =>
        simp only [flushSets, if_neg hcond, hdk] at hrec
        exact ih hrest rec hrec
      | some d =>
        simp only [flushSets, if_neg hcond, hdk] at hrec
        rcases List.mem_cons.1 hrec with h1 | h1
        · subst h1
          show (processBindings d sbk.resource_bindings {}).null_derefs = 0
          rw [processBindings_null_derefs d _ _ hhead]
        · exact ih hrest rec h1

/-- An insert-or-assign keeps a universally satisfied predicate when the new
pair satisfies it. -/
theorem all_assocInsert {α : Type} (p : Nat × α → Bool) (l : List (Nat × α))
    (k : Nat) (v : α) (hl : l.all p = true) (hv : p (k, v) = true) :
    (assocInsert k v l).all p = true := by
  induction l with
  | nil => simp [assocInsert, hv]
  | cons q rest ih =>
    obtain ⟨k1, v1⟩ := q
    rw [List.all_cons] at hl
    have hq := (Bool.and_eq_true _ _ |>.mp hl).1
    have hrest := (Bool.and_eq_true _ _ |>.mp hl).2
    simp only [assocInsert]
    by_cases h1 : k < k1
    · rw [if_pos h1]
      simp [List.all_cons, hv, hq, hrest]
    · rw [if_neg h1]
      by_cases h2 : k = k1
      · rw [if_pos h2]
        simp [List.all_cons, hv, hrest]
      · rw [if_neg h2]
        simp [List.all_cons, hq, ih hrest]

/-- Storing a well-formed entry through the public binding path keeps every
entry of the binding state well formed. -/
theorem bind_resource_wf (rbs : ResourceBindingState) (s b e : Nat)
    (r : ResourceInfo) (hr : r.wfB = true) (h : rbs.wfB = true) :
    (rbs.bind_resource s b e r).wfB = true := by
  have hOldSet : (((assocFind rbs.set_bindings s).getD {}).resource_bindings.all
      fun p => p.2.all fun q => q.2.wfB) = true := by
    cases hf : assocFind rbs.set_bindings s with
    | none => rfl
    | some v =>
      have hm := mem_of_assocFind_eq_some hf
      have := List.all_eq_true.mp h _ hm
      simpa [ResourceSet.wfB] using this
  have hOldElems : (((assocFind ((assocFind rbs.set_bindings s).getD {}).resource_bindings b).getD []).all
      fun q => q.2.wfB) = true := by
    cases hf : assocFind ((assocFind rbs.set_bindings s).getD {}).resource_bindings b with
    | none => rfl
    | some elems =>
      have hm := mem_of_assocFind_eq_some hf
      simpa using List.all_eq_true.mp hOldSet _ hm
  have hNewElems : ((assocInsert e r
      ((assocFind ((assocFind rbs.set_bindings s).getD {}).resource_bindings b).getD [])).all
      fun q => q.2.wfB) = true :=
    all_assocInsert _ _ e r hOldElems (by simpa using hr)
  have hNewBindings : ((assocInsert b
      (assocInsert e r ((assocFind ((assocFind rbs.set_bindings s).getD {}).resource_bindings b).getD []))
      ((assocFind rbs.set_bindings s).getD {}).resource_bindings).all
      fun p => p.2.all fun q => q.2.wfB) = true :=
    all_assocInsert _ _ b _ hOldSet (by simpa using hNewElems)
  show ((assocInsert s _ rbs.set_bindings).all fun p => p.2.wfB) = true
  exact all_assocInsert _ _ s _ h (by simpa [ResourceSet.wfB] using hNewBindings)

/-- Claim C10: the image branch of the descriptor flush never dereferences a
null image view on a binding state whose entries all come through the public
`bind_buffer` / `bind_image` / `bind_input` interface - the flush records
zero null dereferences - and each of those binding calls preserves that
well-formedness (in particular `bind_image` and `bind_input` always store a
present image view, so sampler-only entries never arise). -/
theorem flush_descriptor_state_no_null_deref (cb : CommandBufferState)
    (rbs : ResourceBindingState) (iv : CoreImageView)
    (smp buf off rng s b e : Nat) :
    (cb.resource_binding_state.wfB = true →
       ((cb.flush_descriptor_state).2.all fun r => r.null_derefs == 0) = true)
    ∧ (rbs.wfB = true →
       (rbs.bind_image iv smp s b e).wfB = true
       ∧ (rbs.bind_input iv s b e).wfB = true
       ∧ (rbs.bind_buffer buf off rng s b e).wfB = true) := by
  constructor
  · intro h
    have hall : ∀ p ∈ cb.resource_binding_state.set_bindings, ResourceSet.wfB p.2 = true :=
      fun p hp => List.all_eq_true.mp h p hp
    rw [List.all_eq_true]
    intro rec hrec
    by_cases hcond : (cb.resource_binding_state.dirty
        || !(computeUpdateSets cb.pipeline_state.pipeline_layout
              cb.descriptor_set_layout_state).isEmpty) = true
    · simp only [CommandBufferState.flush_descriptor_state, if_pos hcond] at hrec
      have := flushSets_null_derefs _ _ _ hall rec hrec
      simpa using this
    · simp only [CommandBufferState.flush_descriptor_state, if_neg hcond] at hrec
      cases hrec
  · intro h
    exact ⟨bind_resource_wf rbs s b e _ rfl h,
      bind_resource_wf rbs s b e _ rfl h,
      bind_resource_wf rbs s b e _ rfl h⟩

/-- Witness for claim C10: the flush of the well-formed state `cbW2` records
no null dereference, and a `bind_image` from the empty state stays well
formed. -/
theorem flush_descriptor_state_no_null_deref_witness :
    ((cbW2.flush_descriptor_state).2.all fun r => r.null_derefs == 0) = true
    ∧ (ResourceBindingState.reset.bind_image iv1 9 0 0 0).wfB = true :=
  ⟨(flush_descriptor_state_no_null_deref cbW2 ResourceBindingState.reset
      iv1 9 7 64 16 0 0 0).1 rfl,
   ((flush_descriptor_state_no_null_deref cbW2 ResourceBindingState.reset
      iv1 9 7 64 16 0 0 0).2 rfl).1⟩
